import Mathlib

/-!
Shallow embedding of `src/streamlit_App.py`, a single-file Streamlit RAG
chatbot, together with proofs of the specified properties.

Modelling conventions:
* document text and chunks are `List Char` (Python strings);
* user-visible messages and paths are Lean `String` literals copied from
  the source;
* calls into Streamlit, the logger, the hosted Google APIs and the FAISS
  store are recorded as an explicit list of `Effect`s, in program order;
* the persistent state is a map from paths to optional index contents,
  `Fs`; the only path the program touches is `"faiss_index"`;
* outcomes of the external services (embedding values, deserialization
  of a persisted index, similarity search, chat completion) are supplied
  by an `Env` record, so theorems quantify over every possible behaviour
  of the hosted services.
-/

namespace StreamlitApp

/-- A page of an uploaded PDF.  `extract_text` is the result of
`page.extract_text()`, which may be `None` (modelled as `none`). -/
structure PdfPage where
  extract_text : Option (List Char)
deriving DecidableEq

/-- An uploaded PDF document, as the list of its pages. -/
structure Pdf where
  pages : List PdfPage
deriving DecidableEq

/-- Source lines 42-48: `get_pdf_text` folds over the documents and their
pages, appending `page.extract_text() or ""` to the accumulated text
(`Option.getD` models the `or ""` fallback for a `None` extraction). -/
def get_pdf_text (pdf_docs : List Pdf) : List Char :=
  pdf_docs.foldl
    (fun text pdf =>
      pdf.pages.foldl (fun t page => t ++ page.extract_text.getD []) text)
    []

/-- Source line 55: `chunk_size=10000`. -/
abbrev chunk_size : Nat := 10000

/-- Source line 55: `chunk_overlap=1000`. -/
abbrev chunk_overlap : Nat := 1000

/-- Modelled from the spec: `RecursiveCharacterTextSplitter.split_text`
is implemented in the external langchain library, not in this repository.
The spec describes chunking as splitting "the concatenated text into
overlapping fixed-size windows" with "size 10,000 characters, overlap
1,000", so it is modelled as the sliding-window splitter: a text of at
most `chunk_size` characters is one chunk (none when empty); a longer
text contributes its first `chunk_size` characters and continues
`chunk_size - chunk_overlap` characters further on. -/
def split_text (text : List Char) : List (List Char) :=
  if text.length ≤ chunk_size then
    if text = [] then [] else [text]
  else
    text.take chunk_size :: split_text (text.drop (chunk_size - chunk_overlap))
termination_by text.length
decreasing_by
  simp only [List.length_drop, chunk_size, chunk_overlap] at *
  omega

/-- Source lines 53-57: the splitter is constructed with the constants
`chunk_size` and `chunk_overlap` and applied to the text. -/
def get_text_chunks (text : List Char) : List (List Char) :=
  split_text text

/-- The contents persisted by `FAISS.from_texts(...).save_local(...)` as
far as this program determines them: each chunk paired with the vector
the hosted embedding model returns for it.  The embedding model maps the
chunk text to a vector; the API key is an authentication credential and
is not part of the persisted payload. -/
abbrev IndexData := List (List Char × List Int)

/-- Persistent local storage: a map from paths to optional file
contents.  The program only ever touches the path `"faiss_index"`
(source lines 66 and 96-97). -/
abbrev Fs := String → Option IndexData

/-- Source lines 72-79: the prompt template literal, verbatim (Python
triple-quoted string; `\n` both for the literal newlines of the source
layout and for the explicit `\n` escapes it contains). -/
def prompt_template : String :=
  "\n    Answer the question as detailed as possible from the provided context. If the answer is not in\n    the provided context, say, \"answer is not available in the context.\" Do not provide a wrong answer.\n\n\n    Context:\n {context}\n\n    Question:\n {question}\n\n\n    Answer:\n    "

/-- The configuration assembled by `get_conversational_chain` (source
lines 71-85): the prompt template with its two input variables, the
`"stuff"` chain type, the chat model name, its temperature, and the
user's API key handed to the chat client. -/
structure Chain where
  template : String
  input_variables : List String
  chain_type : String
  model : String
  temperature : ℚ
  google_api_key : String
deriving DecidableEq

/-- Source lines 71-85: builds the QA chain.  Every field except the
API key is a constant of the source text. -/
def get_conversational_chain (api_key : String) : Chain :=
  ⟨prompt_template, ["context", "question"], "stuff", "gemini-pro", 3 / 10, api_key⟩

/-- One observable action of the program, in program order: API-client
construction, index file reads/writes, similarity search, the chat
call, logging, and Streamlit UI output. -/
inductive Effect where
  | embedClient (key : String)
  | loadIndex (path : String)
  | saveIndex (path : String) (data : IndexData)
  | similaritySearch (question : List Char)
  | chatCall (chain : Chain) (context : List Char) (question : List Char)
  | logInfo (msg : String)
  | logError (msg : String)
  | stError (msg : String)
  | stWrite (label : String) (body : String)
  | stSuccess (msg : String)
  | stSpinner (msg : String)
deriving DecidableEq

/-- Recognizes a `similaritySearch` effect. -/
def Effect.isSimilaritySearch : Effect → Bool
  | .similaritySearch _ => true
  | _ => false

/-- Recognizes a `chatCall` effect. -/
def Effect.isChatCall : Effect → Bool
  | .chatCall _ _ _ => true
  | _ => false

/-- Recognizes a `stWrite` effect (the answer display). -/
def Effect.isStWrite : Effect → Bool
  | .stWrite _ _ => true
  | _ => false

/-- Recognizes a `saveIndex` effect (a write of the persisted index). -/
def Effect.isSaveIndex : Effect → Bool
  | .saveIndex _ _ => true
  | _ => false

/-- Recognizes a `loadIndex` effect (an attempt to load the index). -/
def Effect.isLoadIndex : Effect → Bool
  | .loadIndex _ => true
  | _ => false

/-- Recognizes a `stError` effect (a user-visible error message). -/
def Effect.isStError : Effect → Bool
  | .stError _ => true
  | _ => false

/-- Behaviour of the external services, supplied as parameters so that
theorems hold for every behaviour: the embedding model's vector for a
text, the outcome of deserializing a persisted index (`FAISS.load_local`
raises `ValueError` on a format/version mismatch, modelled as
`Except.error`), the similarity-search results of a loaded store, and
the chat model's optional `output_text`. -/
structure Env where
  embed : List Char → List Int
  deserialize : IndexData → Except String Unit
  search : IndexData → List Char → List (List Char)
  chat : List Char → List Char → Option String

/-- The `"stuff"` chain concatenates the retrieved documents, separated
by blank lines, into the single `context` variable of the prompt. -/
def stuff_context (docs : List (List Char)) : List Char :=
  List.intercalate ('\n' :: '\n' :: []) docs

/-- Source lines 90-112, `user_input`: construct the embeddings client,
log, try to load the persisted index from `"faiss_index"`; on
`FileNotFoundError` report the missing-index message and return; on
`ValueError` report and log the load failure and return; otherwise run
the similarity search, build the chain, call the chat model with the
stuffed context and the question, and display the reply. -/
def user_input (user_question : List Char) (api_key : String) (env : Env)
    (fs : Fs) : List Effect :=
  Effect.embedClient api_key ::
  Effect.logInfo "Loading vector store..." ::
  Effect.loadIndex "faiss_index" ::
  match fs "faiss_index" with
  | none =>
      [Effect.stError "Vector store file not found. Please upload and process your PDF files."]
  | some d =>
      match env.deserialize d with
      | Except.error e =>
          [Effect.stError ("Error loading vector store: " ++ e),
           Effect.logError ("Error loading vector store: " ++ e)]
      | Except.ok _ =>
          Effect.logInfo "Vector store loaded successfully." ::
          Effect.similaritySearch user_question ::
          Effect.chatCall (get_conversational_chain api_key)
            (stuff_context (env.search d user_question)) user_question ::
          [Effect.stWrite "Reply: "
            ((env.chat (stuff_context (env.search d user_question))
                user_question).getD "No response generated.")]

/-- Source lines 62-66, `get_vector_store`: construct the embeddings
client with the user's key, embed the chunks, and save the resulting
store wholesale to the fixed path `"faiss_index"`, replacing whatever
was there. -/
def get_vector_store (text_chunks : List (List Char)) (api_key : String)
    (env : Env) (fs : Fs) : List Effect × Fs :=
  let data : IndexData := text_chunks.map (fun c => (c, env.embed c))
  ([Effect.embedClient api_key, Effect.saveIndex "faiss_index" data],
   fun p => if p = "faiss_index" then some data else fs p)

/-- Source lines 117-143, `main`: answer the question only when both the
question and the API key are non-empty (Python truthiness of the two
strings); in the sidebar, when the process button is pressed with a
non-empty key, either run the extract-chunk-index pipeline (when at
least one file is uploaded) or show the upload-a-file error.  Returns
the effects in program order and the resulting persistent state. -/
def main_run (user_question : List Char) (api_key : String)
    (pdf_docs : List Pdf) (process_button : Bool) (env : Env) (fs : Fs) :
    List Effect × Fs :=
  let queryEffects :=
    if user_question ≠ [] ∧ api_key ≠ "" then
      user_input user_question api_key env fs
    else []
  if process_button = true ∧ api_key ≠ "" then
    if pdf_docs ≠ [] then
      let raw_text := get_pdf_text pdf_docs
      let text_chunks := get_text_chunks raw_text
      let r := get_vector_store text_chunks api_key env fs
      (queryEffects ++
         Effect.stSpinner "Processing..." :: r.1 ++
         [Effect.stSuccess "Processing complete. You can now ask questions."],
       r.2)
    else
      (queryEffects ++ [Effect.stError "Please upload at least one PDF file."], fs)
  else
    (queryEffects, fs)

/-- A fixture environment for concrete witnesses: deserialization
succeeds. -/
def env0 : Env :=
  ⟨fun _ => [], fun _ => Except.ok (), fun _ _ => [], fun _ _ => none⟩

/-- A fixture environment for concrete witnesses: deserialization fails
with a format mismatch. -/
def envBad : Env :=
  ⟨fun _ => [], fun _ => Except.error "unsupported serialization format",
   fun _ _ => [], fun _ _ => none⟩

/-- A fixture store with no persisted index. -/
def fsEmpty : Fs := fun _ => none

/-- A fixture store holding a (trivial) persisted index at every path,
in particular at `"faiss_index"`. -/
def fsWithIndex : Fs := fun _ => some []

/-- A fixture one-page document whose page extracts no text. -/
def pdfBlank : Pdf := ⟨[⟨none⟩]⟩

/-- A fixture one-page document with extractable text. -/
def pdfHello : Pdf := ⟨[⟨some ['h', 'i']⟩]⟩

end StreamlitApp

namespace StreamlitApp

/-! ## Chunking lemmas -/

/-- Unfolding of `split_text` on a text longer than `chunk_size`. -/
theorem split_text_long (text : List Char) (h : ¬ text.length ≤ chunk_size) :
    split_text text =
      text.take chunk_size :: split_text (text.drop (chunk_size - chunk_overlap)) := by
  rw [split_text, if_neg h]

/-- Every chunk is the contiguous window of the input starting at
`i * (chunk_size - chunk_overlap)` and capped at `chunk_size`. -/
theorem split_text_get (text : List Char) :
    ∀ i (h : i < (split_text text).length),
      (split_text text)[i] =
        (text.drop (i * (chunk_size - chunk_overlap))).take chunk_size := by
  induction text using split_text.induct with
  | case1 hle =>
    intro i h
    simp [split_text] at h
  | case2 x hle hne =>
    intro i h
    have hx : split_text x = [x] := by
      rw [split_text, if_pos hle, if_neg hne]
    simp only [hx] at h ⊢
    have hi : i = 0 := by
      simp only [List.length_singleton] at h
      omega
    subst hi
    simp [List.take_of_length_le hle]
  | case3 x hle ih =>
    intro i h
    simp only [split_text_long x hle] at h ⊢
    match i with
    | 0 =>
      simp
    | (i + 1) =>
      have h' : i < (split_text (x.drop (chunk_size - chunk_overlap))).length := by
        simpa using h
      rw [List.getElem_cons_succ, ih i h', List.drop_drop]
      congr 2
      ring

/-- A chunk that is not the last one starts at least `chunk_size`
characters before the end of the text. -/
theorem split_text_length_lb (text : List Char) :
    ∀ i, i + 1 < (split_text text).length →
      i * (chunk_size - chunk_overlap) + chunk_size ≤ text.length := by
  induction text using split_text.induct with
  | case1 hle =>
    intro i h
    simp [split_text] at h
  | case2 x hle hne =>
    intro i h
    have hx : split_text x = [x] := by
      rw [split_text, if_pos hle, if_neg hne]
    rw [hx] at h
    simp only [List.length_singleton] at h
    omega
  | case3 x hle ih =>
    intro i h
    rw [split_text_long x hle] at h
    simp only [List.length_cons] at h
    match i with
    | 0 =>
      simp only [Nat.zero_mul, Nat.zero_add]
      omega
    | (i + 1) =>
      have h' : i + 1 < (split_text (x.drop (chunk_size - chunk_overlap))).length := by
        omega
      have := ih i h'
      simp only [List.length_drop] at this
      simp only [chunk_size, chunk_overlap] at *
      omega

/-- Concrete evaluation: a 10,001-character text splits into a full
first window and a 1,001-character remainder window. -/
theorem split_text_replicate_10001 :
    split_text (List.replicate 10001 'a') =
      [List.replicate 10000 'a', List.replicate 1001 'a'] := by
  rw [split_text]
  norm_num
  rw [split_text]
  norm_num

/-- The 10,001-character fixture yields at least one chunk. -/
theorem split_text_replicate_pos :
    0 < (get_text_chunks (List.replicate 10001 'a')).length := by
  rw [get_text_chunks, split_text_replicate_10001]
  norm_num

/-- The 10,001-character fixture yields more than one chunk. -/
theorem split_text_replicate_two :
    0 + 1 < (get_text_chunks (List.replicate 10001 'a')).length := by
  rw [get_text_chunks, split_text_replicate_10001]
  norm_num

/-- C1, counterexample: on the one-character input `"a"` the chunking
operation yields the single chunk `"a"`, of length 1, not 10,000, so
not every chunk is a window of exactly `chunk_size` characters. -/
theorem get_text_chunks_exact_size_cex :
    get_text_chunks ['a'] = [['a']] ∧
      ¬ (∀ c ∈ get_text_chunks ['a'], c.length = chunk_size) := by
  constructor
  · simp [get_text_chunks, split_text]
  · intro hall
    have := hall ['a'] (by simp [get_text_chunks, split_text])
    simp [chunk_size] at this

/-- Combined window specification of the splitter: window positions,
the size cap, the exact size of non-final chunks, and the exact
overlap of consecutive chunks. -/
theorem split_text_window_spec (text : List Char) :
    ∀ i (h : i < (split_text text).length),
      (split_text text)[i] =
          (text.drop (i * (chunk_size - chunk_overlap))).take chunk_size ∧
      (split_text text)[i].length ≤ chunk_size ∧
      ∀ (h2 : i + 1 < (split_text text).length),
        (split_text text)[i].length = chunk_size ∧
        (split_text text)[i].drop (chunk_size - chunk_overlap) =
          (split_text text)[i + 1].take chunk_overlap ∧
        ((split_text text)[i].drop (chunk_size - chunk_overlap)).length =
          chunk_overlap := by
  intro i h
  have W := split_text_get text
  refine ⟨W i h, ?_, ?_⟩
  · rw [W i h]
    simp only [List.length_take]
    omega
  · intro h2
    have lb := split_text_length_lb text i h2
    have hlen : (split_text text)[i].length = chunk_size := by
      rw [W i h]
      simp only [List.length_take, List.length_drop]
      omega
    refine ⟨hlen, ?_, ?_⟩
    · rw [W i h, W (i + 1) h2]
      rw [List.drop_take, List.drop_drop, List.take_take]
      simp only [chunk_size, chunk_overlap]
      norm_num
      rw [Nat.succ_mul]
    · rw [W i h]
      rw [List.drop_take, List.drop_drop]
      simp only [List.length_take, List.length_drop]
      simp only [chunk_size, chunk_overlap] at lb ⊢
      omega

/-- C1, amended: every chunk is the contiguous window of the input
starting at `i * (chunk_size - chunk_overlap)`, of at most `chunk_size`
characters; every chunk except the last has exactly `chunk_size`
characters, and consecutive chunks overlap in exactly `chunk_overlap`
characters (the trailing `chunk_overlap` characters of a chunk are the
leading `chunk_overlap` characters of the next). -/
theorem get_text_chunks_window_spec (text : List Char) :
    ∀ i (h : i < (get_text_chunks text).length),
      (get_text_chunks text)[i] =
          (text.drop (i * (chunk_size - chunk_overlap))).take chunk_size ∧
      (get_text_chunks text)[i].length ≤ chunk_size ∧
      ∀ (h2 : i + 1 < (get_text_chunks text).length),
        (get_text_chunks text)[i].length = chunk_size ∧
        (get_text_chunks text)[i].drop (chunk_size - chunk_overlap) =
          (get_text_chunks text)[i + 1].take chunk_overlap ∧
        ((get_text_chunks text)[i].drop (chunk_size - chunk_overlap)).length =
          chunk_overlap :=
  split_text_window_spec text

/-- C1, witness: on a concrete 10,001-character text the first chunk has
exactly `chunk_size` characters. -/
theorem get_text_chunks_window_spec_witness :
    ((get_text_chunks (List.replicate 10001 'a')).get
        ⟨0, split_text_replicate_pos⟩).length = chunk_size :=
  ((get_text_chunks_window_spec (List.replicate 10001 'a') 0
      split_text_replicate_pos).2.2 split_text_replicate_two).1

end StreamlitApp

namespace StreamlitApp

/-! ## Text-extraction lemmas -/

/-- The inner page fold appends the extracted page texts, in page order,
to the accumulator. -/
theorem pages_foldl_eq (pages : List PdfPage) (t : List Char) :
    pages.foldl (fun t page => t ++ page.extract_text.getD []) t =
      t ++ (pages.map (fun page => page.extract_text.getD [])).flatten := by
  induction pages generalizing t with
  | nil => simp
  | cons p ps ih => simp [ih]

/-- The outer document fold appends the per-document concatenations, in
document order, to the accumulator. -/
theorem docs_foldl_eq (pdf_docs : List Pdf) (t : List Char) :
    pdf_docs.foldl
        (fun text pdf =>
          pdf.pages.foldl (fun t page => t ++ page.extract_text.getD []) text)
        t =
      t ++ (pdf_docs.map (fun pdf =>
        (pdf.pages.map (fun page => page.extract_text.getD [])).flatten)).flatten := by
  induction pdf_docs generalizing t with
  | nil => simp
  | cons pdf pdfs ih =>
    simp only [List.foldl_cons]
    rw [ih, pages_foldl_eq]
    simp [List.append_assoc]

/-- Closed form of `get_pdf_text`: the concatenation over documents of
the concatenation over pages of the extracted page text. -/
theorem get_pdf_text_eq (pdf_docs : List Pdf) :
    get_pdf_text pdf_docs =
      (pdf_docs.map (fun pdf =>
        (pdf.pages.map (fun page => page.extract_text.getD [])).flatten)).flatten := by
  rw [get_pdf_text, docs_foldl_eq]
  simp

/-- When every page of every document extracts nothing (or the empty
string), the whole extraction is the empty string. -/
theorem get_pdf_text_blank (pdf_docs : List Pdf)
    (h : ∀ pdf ∈ pdf_docs, ∀ page ∈ pdf.pages,
      page.extract_text = none ∨ page.extract_text = some []) :
    get_pdf_text pdf_docs = [] := by
  rw [get_pdf_text_eq]
  rw [List.flatten_eq_nil_iff]
  intro l hl
  rw [List.mem_map] at hl
  obtain ⟨pdf, hpdf, rfl⟩ := hl
  rw [List.flatten_eq_nil_iff]
  intro s hs
  rw [List.mem_map] at hs
  obtain ⟨page, hpage, rfl⟩ := hs
  rcases h pdf hpdf page hpage with h1 | h1 <;> simp [h1]

/-- C5: the extracted text is one single string, the concatenation of
the extracted text of every page of every document, in document order
then page order; the result type retains no per-page or per-document
structure. -/
theorem get_pdf_text_concat_order (pdf_docs : List Pdf) :
    get_pdf_text pdf_docs =
      (pdf_docs.map (fun pdf =>
        (pdf.pages.map (fun page => page.extract_text.getD [])).flatten)).flatten :=
  get_pdf_text_eq pdf_docs

/-- C3: text extraction is a total function, and on any collection of
documents all of whose pages yield no extractable text (extraction
returns nothing or the empty string) it returns the empty string. -/
theorem get_pdf_text_total_blank (pdf_docs : List Pdf)
    (h : ∀ pdf ∈ pdf_docs, ∀ page ∈ pdf.pages,
      page.extract_text = none ∨ page.extract_text = some []) :
    get_pdf_text pdf_docs = [] :=
  get_pdf_text_blank pdf_docs h

/-- C3, witness: a run on a document with a `None`-extracting page and
an empty-extracting page, plus a pageless document, yields `""`. -/
theorem get_pdf_text_total_blank_witness :
    get_pdf_text [⟨[⟨none⟩, ⟨some []⟩]⟩, ⟨[]⟩] = [] :=
  get_pdf_text_total_blank [⟨[⟨none⟩, ⟨some []⟩]⟩, ⟨[]⟩] (by decide)

end StreamlitApp

namespace StreamlitApp

/-! ## Query-path theorems -/

/-- C2: when the persisted index file is absent, the query operation
emits exactly the client construction, the load attempt with its log
line, and the documented missing-index error message; in particular no
similarity search, no chat call, and no answer display occur. -/
theorem user_input_missing_index (user_question : List Char)
    (api_key : String) (env : Env) (fs : Fs)
    (h : fs "faiss_index" = none) :
    user_input user_question api_key env fs =
      [Effect.embedClient api_key,
       Effect.logInfo "Loading vector store...",
       Effect.loadIndex "faiss_index",
       Effect.stError "Vector store file not found. Please upload and process your PDF files."] ∧
    ∀ eff ∈ user_input user_question api_key env fs,
      eff.isSimilaritySearch = false ∧ eff.isChatCall = false ∧
        eff.isStWrite = false := by
  have he : user_input user_question api_key env fs =
      [Effect.embedClient api_key,
       Effect.logInfo "Loading vector store...",
       Effect.loadIndex "faiss_index",
       Effect.stError "Vector store file not found. Please upload and process your PDF files."] := by
    simp only [user_input, h]
  refine ⟨he, ?_⟩
  intro eff heff
  rw [he] at heff
  simp only [List.mem_cons, List.not_mem_nil, or_false] at heff
  rcases heff with rfl | rfl | rfl | rfl <;> exact ⟨rfl, rfl, rfl⟩

/-- C2, witness: the missing-index path on a concrete store with no
persisted index. -/
theorem user_input_missing_index_witness :
    user_input ['q'] "k" env0 fsEmpty =
      [Effect.embedClient "k",
       Effect.logInfo "Loading vector store...",
       Effect.loadIndex "faiss_index",
       Effect.stError "Vector store file not found. Please upload and process your PDF files."] :=
  (user_input_missing_index ['q'] "k" env0 fsEmpty rfl).1

/-- C4: when loading the persisted index fails with a format/version
mismatch (`ValueError e`), the query operation reports the user-visible
load-failure message (and logs it) and returns: no similarity search,
no chat call, no answer display, and exactly one load attempt (no
retry). -/
theorem user_input_load_failure (user_question : List Char)
    (api_key : String) (env : Env) (fs : Fs) (d : IndexData) (e : String)
    (h1 : fs "faiss_index" = some d)
    (h2 : env.deserialize d = Except.error e) :
    user_input user_question api_key env fs =
      [Effect.embedClient api_key,
       Effect.logInfo "Loading vector store...",
       Effect.loadIndex "faiss_index",
       Effect.stError ("Error loading vector store: " ++ e),
       Effect.logError ("Error loading vector store: " ++ e)] ∧
    (∀ eff ∈ user_input user_question api_key env fs,
      eff.isSimilaritySearch = false ∧ eff.isChatCall = false ∧
        eff.isStWrite = false) ∧
    (user_input user_question api_key env fs).countP
        (fun eff => eff.isLoadIndex) = 1 := by
  have he : user_input user_question api_key env fs =
      [Effect.embedClient api_key,
       Effect.logInfo "Loading vector store...",
       Effect.loadIndex "faiss_index",
       Effect.stError ("Error loading vector store: " ++ e),
       Effect.logError ("Error loading vector store: " ++ e)] := by
    simp only [user_input, h1, h2]
  refine ⟨he, ?_, ?_⟩
  · intro eff heff
    rw [he] at heff
    simp only [List.mem_cons, List.not_mem_nil, or_false] at heff
    rcases heff with rfl | rfl | rfl | rfl | rfl <;> exact ⟨rfl, rfl, rfl⟩
  · rw [he]
    rfl

/-- C4, witness: the load-failure path on a concrete store whose
persisted index does not deserialize. -/
theorem user_input_load_failure_witness :
    user_input ['q'] "k" envBad fsWithIndex =
      [Effect.embedClient "k",
       Effect.logInfo "Loading vector store...",
       Effect.loadIndex "faiss_index",
       Effect.stError ("Error loading vector store: " ++ "unsupported serialization format"),
       Effect.logError ("Error loading vector store: " ++ "unsupported serialization format")] :=
  (user_input_load_failure ['q'] "k" envBad fsWithIndex []
    "unsupported serialization format" rfl rfl).1

/-- C7: on a successful load, the query operation runs the similarity
search, issues exactly one chat call whose chain carries the fixed
prompt template instantiated by exactly the two variables context (the
stuffed retrieved chunks) and question (the user's question), and then
displays the returned text; the template and its variable list are
constants, independent of every input. -/
theorem user_input_fixed_prompt (user_question : List Char)
    (api_key : String) (env : Env) (fs : Fs) (d : IndexData)
    (h1 : fs "faiss_index" = some d)
    (h2 : env.deserialize d = Except.ok ()) :
    user_input user_question api_key env fs =
      [Effect.embedClient api_key,
       Effect.logInfo "Loading vector store...",
       Effect.loadIndex "faiss_index",
       Effect.logInfo "Vector store loaded successfully.",
       Effect.similaritySearch user_question,
       Effect.chatCall (get_conversational_chain api_key)
         (stuff_context (env.search d user_question)) user_question,
       Effect.stWrite "Reply: "
         ((env.chat (stuff_context (env.search d user_question))
             user_question).getD "No response generated.")] ∧
    (get_conversational_chain api_key).template = prompt_template ∧
    (get_conversational_chain api_key).input_variables =
      ["context", "question"] := by
  refine ⟨?_, rfl, rfl⟩
  simp only [user_input, h1, h2]

/-- C7, witness: the successful-load path on a concrete store and
environment. -/
theorem user_input_fixed_prompt_witness :
    user_input ['q'] "k" env0 fsWithIndex =
      [Effect.embedClient "k",
       Effect.logInfo "Loading vector store...",
       Effect.loadIndex "faiss_index",
       Effect.logInfo "Vector store loaded successfully.",
       Effect.similaritySearch ['q'],
       Effect.chatCall (get_conversational_chain "k")
         (stuff_context (env0.search [] ['q'])) ['q'],
       Effect.stWrite "Reply: "
         ((env0.chat (stuff_context (env0.search [] ['q'])) ['q']).getD
           "No response generated.")] :=
  (user_input_fixed_prompt ['q'] "k" env0 fsWithIndex [] rfl rfl).1

end StreamlitApp

namespace StreamlitApp

/-! ## Processing-run theorems -/

/-- The query path never writes the persisted index: no effect of
`user_input` is a `saveIndex`. -/
theorem user_input_no_save (user_question : List Char) (api_key : String)
    (env : Env) (fs : Fs) :
    ∀ eff ∈ user_input user_question api_key env fs,
      eff.isSaveIndex = false := by
  intro eff heff
  rw [user_input] at heff
  cases hfs : fs "faiss_index" with
  | none =>
    simp only [hfs] at heff
    simp only [List.mem_cons, List.not_mem_nil, or_false] at heff
    rcases heff with rfl | rfl | rfl | rfl <;> rfl
  | some d =>
    simp only [hfs] at heff
    cases hd : env.deserialize d with
    | error e =>
      simp only [hd] at heff
      simp only [List.mem_cons, List.not_mem_nil, or_false] at heff
      rcases heff with rfl | rfl | rfl | rfl | rfl <;> rfl
    | ok u =>
      simp only [hd] at heff
      simp only [List.mem_cons, List.not_mem_nil, or_false] at heff
      rcases heff with rfl | rfl | rfl | rfl | rfl | rfl | rfl <;> rfl

/-- C6: a processing run (process button pressed, non-empty key, at
least one uploaded file) writes the vector store wholesale to the fixed
path `"faiss_index"`, regardless of what was persisted there before,
and leaves every other path of persistent storage unchanged. -/
theorem process_overwrites_index (user_question : List Char)
    (api_key : String) (pdf_docs : List Pdf) (env : Env) (fs : Fs)
    (hk : api_key ≠ "") (hp : pdf_docs ≠ []) :
    (main_run user_question api_key pdf_docs true env fs).2 "faiss_index" =
      some ((get_text_chunks (get_pdf_text pdf_docs)).map
        (fun c => (c, env.embed c))) ∧
    ∀ p, p ≠ "faiss_index" →
      (main_run user_question api_key pdf_docs true env fs).2 p = fs p := by
  constructor
  · simp [main_run, get_vector_store, hk, hp]
  · intro p hne
    simp [main_run, get_vector_store, hk, hp, hne]

/-- C6, witness: a concrete processing run writes `"faiss_index"` and
leaves the path `"other"` untouched. -/
theorem process_overwrites_index_witness :
    (main_run ['q'] "k" [pdfHello] true env0 fsEmpty).2 "other" =
      fsEmpty "other" :=
  (process_overwrites_index ['q'] "k" [pdfHello] env0 fsEmpty
    (by decide) (by decide)).2 "other" (by decide)

/-- C9: chunking the empty string produces no chunks, and a processing
run over documents none of whose pages extracts any text persists an
index of zero chunks. -/
theorem empty_text_zero_chunks :
    get_text_chunks [] = [] ∧
    ∀ (user_question : List Char) (api_key : String) (pdf_docs : List Pdf)
      (env : Env) (fs : Fs),
      api_key ≠ "" → pdf_docs ≠ [] →
      (∀ pdf ∈ pdf_docs, ∀ page ∈ pdf.pages, page.extract_text = none) →
      (main_run user_question api_key pdf_docs true env fs).2 "faiss_index" =
        some [] := by
  constructor
  · simp [get_text_chunks, split_text]
  · intro q key pdfs env fs hk hp hblank
    have hraw : get_pdf_text pdfs = [] :=
      get_pdf_text_blank pdfs
        (fun pdf hpdf page hpage => Or.inl (hblank pdf hpdf page hpage))
    simp [main_run, get_vector_store, hk, hp, hraw, get_text_chunks, split_text]

/-- C9, witness: a concrete processing run over one document whose only
page extracts nothing persists the empty index. -/
theorem empty_text_zero_chunks_witness :
    (main_run [] "k" [pdfBlank] true env0 fsEmpty).2 "faiss_index" =
      some [] :=
  empty_text_zero_chunks.2 [] "k" [pdfBlank] env0 fsEmpty
    (by decide) (by decide) (by decide)

end StreamlitApp

namespace StreamlitApp

/-- Case analysis of the effects of a full run: every emitted effect
either comes from the query path (which runs only with a non-empty
question and key), from the processing path (which runs only with the
button pressed, a non-empty key and at least one file), or is the
upload-a-file error (button pressed, non-empty key, no file). -/
theorem main_run_effects_cases (user_question : List Char)
    (api_key : String) (pdf_docs : List Pdf) (process_button : Bool)
    (env : Env) (fs : Fs) :
    ∀ eff ∈ (main_run user_question api_key pdf_docs process_button env fs).1,
      (eff ∈ user_input user_question api_key env fs ∧
        user_question ≠ [] ∧ api_key ≠ "") ∨
      (process_button = true ∧ api_key ≠ "" ∧ pdf_docs ≠ [] ∧
        (eff = Effect.stSpinner "Processing..." ∨
         eff = Effect.embedClient api_key ∨
         eff = Effect.saveIndex "faiss_index"
           ((get_text_chunks (get_pdf_text pdf_docs)).map
             (fun c => (c, env.embed c))) ∨
         eff = Effect.stSuccess "Processing complete. You can now ask questions.")) ∨
      (process_button = true ∧ api_key ≠ "" ∧ pdf_docs = [] ∧
        eff = Effect.stError "Please upload at least one PDF file.") := by
  intro eff heff
  simp only [main_run] at heff
  have hquery : eff ∈ (if user_question ≠ [] ∧ api_key ≠ "" then
      user_input user_question api_key env fs else []) →
      eff ∈ user_input user_question api_key env fs ∧
        user_question ≠ [] ∧ api_key ≠ "" := by
    intro hin
    by_cases hqc : user_question ≠ [] ∧ api_key ≠ ""
    · rw [if_pos hqc] at hin
      exact ⟨hin, hqc⟩
    · rw [if_neg hqc] at hin
      simp at hin
  by_cases hb : process_button = true ∧ api_key ≠ ""
  · rw [if_pos hb] at heff
    by_cases hpd : pdf_docs ≠ []
    · rw [if_pos hpd] at heff
      simp only [get_vector_store] at heff
      rcases List.mem_append.mp heff with hin | hin
      · rcases List.mem_append.mp hin with hin2 | hin2
        · exact Or.inl (hquery hin2)
        · simp only [List.mem_cons, List.not_mem_nil, or_false] at hin2
          refine Or.inr (Or.inl ⟨hb.1, hb.2, hpd, ?_⟩)
          rcases hin2 with rfl | rfl | rfl
          · exact Or.inl rfl
          · exact Or.inr (Or.inl rfl)
          · exact Or.inr (Or.inr (Or.inl rfl))
      · simp only [List.mem_cons, List.not_mem_nil, or_false] at hin
        exact Or.inr (Or.inl ⟨hb.1, hb.2, hpd,
          Or.inr (Or.inr (Or.inr hin))⟩)
    · rw [if_neg hpd] at heff
      rcases List.mem_append.mp heff with hin | hin
      · exact Or.inl (hquery hin)
      · simp only [List.mem_cons, List.not_mem_nil, or_false] at hin
        exact Or.inr (Or.inr ⟨hb.1, hb.2, not_not.mp hpd, hin⟩)
  · rw [if_neg hb] at heff
    exact Or.inl (hquery heff)

/-- C8: the persistent state left by a run is the same whatever the
(usable) API key is — the key influences only the hosted-API calls, so
nothing derived from it is written to the persisted index file or any
other persistent storage; moreover the only write effect ever emitted
stores exactly the chunks with their embeddings, a value built without
the key. -/
theorem api_key_not_persisted (user_question : List Char)
    (pdf_docs : List Pdf) (process_button : Bool) (env : Env) (fs : Fs)
    (key1 key2 : String) (hk : key1 = "" ↔ key2 = "") :
    (main_run user_question key1 pdf_docs process_button env fs).2 =
      (main_run user_question key2 pdf_docs process_button env fs).2 ∧
    ∀ eff ∈ (main_run user_question key1 pdf_docs process_button env fs).1,
      eff.isSaveIndex = true →
        eff = Effect.saveIndex "faiss_index"
          ((get_text_chunks (get_pdf_text pdf_docs)).map
            (fun c => (c, env.embed c))) := by
  constructor
  · by_cases h1 : key1 = ""
    · have h2 := hk.mp h1
      simp [main_run, h1, h2]
    · have h2 : ¬ key2 = "" := fun hh => h1 (hk.mpr hh)
      by_cases hb : process_button = true
      · by_cases hpd : pdf_docs = []
        · simp [main_run, h1, h2, hb, hpd]
        · simp [main_run, h1, h2, hb, hpd, get_vector_store]
      · simp [main_run, h1, h2, hb]
  · intro eff heff hsave
    rcases main_run_effects_cases user_question key1 pdf_docs
        process_button env fs eff heff with
      ⟨hin, _, _⟩ | ⟨_, _, _, hin⟩ | ⟨_, _, _, rfl⟩
    · exact absurd hsave
        (by simp [user_input_no_save user_question key1 env fs eff hin])
    · rcases hin with rfl | rfl | rfl | rfl
      · exact absurd hsave (by simp [Effect.isSaveIndex])
      · exact absurd hsave (by simp [Effect.isSaveIndex])
      · rfl
      · exact absurd hsave (by simp [Effect.isSaveIndex])
    · exact absurd hsave (by simp [Effect.isSaveIndex])

/-- C8, witness: two concrete runs differing only in the key leave the
same persistent state. -/
theorem api_key_not_persisted_witness :
    (main_run ['q'] "k1" [pdfHello] true env0 fsEmpty).2 =
      (main_run ['q'] "k2" [pdfHello] true env0 fsEmpty).2 :=
  (api_key_not_persisted ['q'] [pdfHello] true env0 fsEmpty "k1" "k2"
    (by simp)).1

/-- C10, counterexample: when the process button is pressed with an
uploaded file but an empty API key, the program emits no effect at all —
in particular no error message asking for a file — and changes nothing,
contradicting the claim that in every non-processing case an error
message asking for a file is shown. -/
theorem main_guards_cex :
    (main_run ['h'] "" [pdfHello] true env0 fsEmpty).1 = [] ∧
    (main_run ['h'] "" [pdfHello] true env0 fsEmpty).2 = fsEmpty := by
  constructor <;> rfl

/-- C10, amended: neither pipeline runs with an empty API key (with an
empty key the program does nothing at all); answering requires both a
non-empty question and a non-empty key; processing requires a non-empty
key and at least one uploaded file; and the upload-a-file error message
is shown exactly in the case where the button is pressed with a
non-empty key and no file, with no processing occurring. -/
theorem main_guards (user_question : List Char) (api_key : String)
    (pdf_docs : List Pdf) (process_button : Bool) (env : Env) (fs : Fs) :
    (api_key = "" →
      main_run user_question api_key pdf_docs process_button env fs = ([], fs)) ∧
    (process_button = true → api_key ≠ "" → pdf_docs = [] →
      Effect.stError "Please upload at least one PDF file." ∈
        (main_run user_question api_key pdf_docs process_button env fs).1 ∧
      (main_run user_question api_key pdf_docs process_button env fs).2 = fs ∧
      ∀ eff ∈ (main_run user_question api_key pdf_docs process_button env fs).1,
        eff.isSaveIndex = false) ∧
    (∀ eff ∈ (main_run user_question api_key pdf_docs process_button env fs).1,
      eff.isSaveIndex = true → api_key ≠ "" ∧ pdf_docs ≠ []) ∧
    (∀ eff ∈ (main_run user_question api_key pdf_docs process_button env fs).1,
      eff.isSimilaritySearch = true ∨ eff.isChatCall = true →
        user_question ≠ [] ∧ api_key ≠ "") := by
  refine ⟨?_, ?_, ?_, ?_⟩
  · intro h
    simp [main_run, h]
  · intro hb hk hpd
    have hmain : (main_run user_question api_key pdf_docs process_button env fs).1 =
        (if user_question ≠ [] ∧ api_key ≠ "" then
          user_input user_question api_key env fs else []) ++
        [Effect.stError "Please upload at least one PDF file."] := by
      simp [main_run, hb, hk, hpd]
    refine ⟨?_, ?_, ?_⟩
    · rw [hmain]
      exact List.mem_append_right _ (by simp)
    · simp [main_run, hb, hk, hpd]
    · intro eff heff
      rcases main_run_effects_cases user_question api_key pdf_docs
          process_button env fs eff heff with
        ⟨hin, _, _⟩ | ⟨_, _, hne, _⟩ | ⟨_, _, _, rfl⟩
      · exact user_input_no_save user_question api_key env fs eff hin
      · exact absurd hpd hne
      · rfl
  · intro eff heff hsave
    rcases main_run_effects_cases user_question api_key pdf_docs
        process_button env fs eff heff with
      ⟨hin, _, _⟩ | ⟨_, hke, hne, _⟩ | ⟨_, _, _, rfl⟩
    · exact absurd hsave
        (by simp [user_input_no_save user_question api_key env fs eff hin])
    · exact ⟨hke, hne⟩
    · exact absurd hsave (by simp [Effect.isSaveIndex])
  · intro eff heff hqc
    rcases main_run_effects_cases user_question api_key pdf_docs
        process_button env fs eff heff with
      ⟨_, hq, hke⟩ | ⟨_, _, _, hin⟩ | ⟨_, _, _, rfl⟩
    · exact ⟨hq, hke⟩
    · exfalso
      rcases hin with rfl | rfl | rfl | rfl <;>
        simp [Effect.isSimilaritySearch, Effect.isChatCall] at hqc
    · exfalso
      simp [Effect.isSimilaritySearch, Effect.isChatCall] at hqc

/-- C10, witness: with an empty key nothing happens; with a non-empty
key, the button pressed and no uploaded file, the upload-a-file error
is shown. -/
theorem main_guards_witness :
    main_run ['q'] "" [] false env0 fsEmpty = ([], fsEmpty) ∧
    Effect.stError "Please upload at least one PDF file." ∈
      (main_run ['q'] "k" [] true env0 fsEmpty).1 :=
  ⟨(main_guards ['q'] "" [] false env0 fsEmpty).1 rfl,
   ((main_guards ['q'] "k" [] true env0 fsEmpty).2.1 rfl (by decide) rfl).1⟩

end StreamlitApp
